import Mathlib

/-!
Verification of the Flask-User access-guard decorators
(`src/flask_user/decorators.py`).

The module defines three decorators — `login_required`, `roles_required`,
`confirm_email_required` — and one helper, `user_has_confirmed_email`.
Each decorator wraps a view handler and either delegates to it or to one of
three host-supplied fallback callbacks, after consulting the current
principal (`current_user`) and the host application configuration
(`current_app.user_manager`).

The embedding below is shallow and pure: the per-request ambient state that
the Python code reads through `current_user` and `current_app` is passed
explicitly as arguments. The handler takes an abstract argument value
(standing for the original positional and keyword arguments) and returns an
abstract result. A second embedding into the `Except` monad, used for the
error-propagation claims, makes every external call fallible.
-/

namespace FlaskUser

/-- A requirement term passed to `roles_required`: either a single role
name, or a tuple of role names. -/
inductive Requirement where
  | role (name : String)
  | tuple (names : List String)
deriving DecidableEq, Repr

/-- The current principal as read by the decorators: the result of
`current_user.is_authenticated()`, the (external) method
`current_user.has_roles(...)` applied to the requirement terms, and the
result of `current_user.has_confirmed_email()`. -/
structure CurrentUser where
  is_authenticated : Bool
  has_roles : List Requirement → Bool
  has_confirmed_email : Bool

/-- The host application state read through `current_app.user_manager`:
three fallback view callbacks (modelled by their results) and two
configuration flags. -/
structure UserManager (R : Type) where
  unauthenticated_view_function : R
  unauthorized_view_function : R
  unconfirmed_email_view_function : R
  enable_email : Bool
  enable_confirm_email : Bool

/-- `login_required(func)`: if the current user is not authenticated,
return the result of `unauthenticated_view_function()`; otherwise call the
actual view with the original arguments. -/
def login_required {A R : Type} (func : A → R) (cu : CurrentUser)
    (um : UserManager R) (args : A) : R :=
  if !cu.is_authenticated then
    um.unauthenticated_view_function
  else
    func args

/-- `roles_required(*required_roles)(func)`: the user must be
authenticated, then must satisfy `current_user.has_roles(*required_roles)`;
on failure of the first check return `unauthenticated_view_function()`, on
failure of the second return `unauthorized_view_function()`, otherwise call
the actual view. -/
def roles_required {A R : Type} (required_roles : List Requirement)
    (func : A → R) (cu : CurrentUser) (um : UserManager R) (args : A) : R :=
  if !cu.is_authenticated then
    um.unauthenticated_view_function
  else if !(cu.has_roles required_roles) then
    um.unauthorized_view_function
  else
    func args

/-- `confirm_email_required(func)`: if the user is authenticated and
(email is not enabled, or confirm-email is not enabled, or the user has a
confirmed email) call the actual view; in every other case return
`unconfirmed_email_view_function()`. -/
def confirm_email_required {A R : Type} (func : A → R) (cu : CurrentUser)
    (um : UserManager R) (args : A) : R :=
  if cu.is_authenticated then
    if !um.enable_email || !um.enable_confirm_email || cu.has_confirmed_email then
      func args
    else
      um.unconfirmed_email_view_function
  else
    um.unconfirmed_email_view_function

/-- A user-email record, as produced by the data-access adapter; the
`confirmed_at` timestamp is nullable. -/
structure UserEmail where
  confirmed_at : Option Nat

/-- A user record with an id and a nullable `confirmed_at` timestamp
(the latter used only by the single-email-per-user branch). -/
structure User where
  id : Nat
  confirmed_at : Option Nat

/-- The data-access adapter read through
`current_app.user_manager.db_adapter`: `UserEmailClass` models the
truthiness of the configured multi-email record class, and
`find_all_objects` models the query
`find_all_objects(UserEmailClass, user_id=...)` by the user id. -/
structure DbAdapter where
  UserEmailClass : Bool
  find_all_objects : Nat → List UserEmail

/-- The `for user_email in user_emails: if user_email.confirmed_at:
has_confirmed_email = True; break` loop of `user_has_confirmed_email`,
starting from `has_confirmed_email = False`. -/
def findConfirmedEmail : List UserEmail → Bool
  | [] => false
  | ue :: rest =>
    if ue.confirmed_at.isSome then true else findConfirmedEmail rest

/-- `user_has_confirmed_email(user)`: with a configured multi-email record
class, scan the adapter query results for one record with a non-null
`confirmed_at`; otherwise test the `confirmed_at` field of the user record
itself (`True if user.confirmed_at else False`). The diagnostic `print`
calls in the source affect no returned value and are not modelled. -/
def user_has_confirmed_email (db_adapter : DbAdapter) (user : User) : Bool :=
  if db_adapter.UserEmailClass then
    findConfirmedEmail (db_adapter.find_all_objects user.id)
  else
    user.confirmed_at.isSome

/-- Modelled from the spec: the principal method `has_roles` belongs to the
Flask-User user-model mixin, which is not among the source files here (the
decorator only calls `current_user.has_roles(*required_roles)`). Per the
spec: a role-name requirement is accepted when the user has this role; a
tuple-of-role-names requirement is accepted when the user has ONE of these
roles; the call is accepted when ALL of the requirements are accepted. -/
def specHasRoles (userRoles : List String) (reqs : List Requirement) : Bool :=
  reqs.all fun req =>
    match req with
    | .role n => userRoles.contains n
    | .tuple ns => ns.any fun n => userRoles.contains n

/-- Satisfaction of one requirement term, stated as the spec words it: a
single-role term needs that role, a tuple term needs at least one of its
roles. -/
def termSatisfied (userRoles : List String) : Requirement → Prop
  | .role n => n ∈ userRoles
  | .tuple ns => ∃ n ∈ ns, n ∈ userRoles

/-- Satisfaction of a Role Requirement Expression: every term is
satisfied (conjunction of terms). -/
def exprSatisfied (userRoles : List String) (reqs : List Requirement) : Prop :=
  ∀ req ∈ reqs, termSatisfied userRoles req

instance termSatisfiedDecidable (ur : List String) :
    (req : Requirement) → Decidable (termSatisfied ur req)
  | .role n => inferInstanceAs (Decidable (n ∈ ur))
  | .tuple ns => inferInstanceAs (Decidable (∃ n ∈ ns, n ∈ ur))

instance exprSatisfiedDecidable (ur : List String)
    (reqs : List Requirement) : Decidable (exprSatisfied ur reqs) :=
  inferInstanceAs (Decidable (∀ req ∈ reqs, termSatisfied ur req))

/-- The requirement list of the worked example of the spec:
`roles_required('a', ('b','c'), 'd')`. -/
def exampleReqs : List Requirement :=
  [.role "a", .tuple ["b", "c"], .role "d"]

/-- The role set of a principal in the worked example, from four
presence/absence flags for the roles a, b, c, d. -/
def rolesOf (ha hb hc hd : Bool) : List String :=
  (if ha then ["a"] else []) ++ (if hb then ["b"] else []) ++
    (if hc then ["c"] else []) ++ (if hd then ["d"] else [])

/-- The routing decision of a guarded call: which of the four targets —
the wrapped handler or one of the three fallback callbacks — receives the
call. -/
inductive Route where
  | toHandler
  | toUnauthenticated
  | toUnauthorized
  | toUnconfirmedEmail
deriving DecidableEq, Repr

/-- The branch structure of `login_required`, as a routing decision. -/
def login_route (cu : CurrentUser) : Route :=
  if !cu.is_authenticated then .toUnauthenticated else .toHandler

/-- The branch structure of `roles_required`, as a routing decision. -/
def roles_route (required_roles : List Requirement) (cu : CurrentUser) :
    Route :=
  if !cu.is_authenticated then .toUnauthenticated
  else if !(cu.has_roles required_roles) then .toUnauthorized
  else .toHandler

/-- The branch structure of `confirm_email_required`, as a routing
decision from the principal and the two configuration flags. -/
def confirm_route (cu : CurrentUser) (ee ece : Bool) : Route :=
  if cu.is_authenticated then
    if !ee || !ece || cu.has_confirmed_email then .toHandler
    else .toUnconfirmedEmail
  else .toUnconfirmedEmail

/-- Delivery of a routing decision: call the handler or return the chosen
callback result. -/
def dispatch {A R : Type} (r : Route) (func : A → R) (um : UserManager R)
    (args : A) : R :=
  match r with
  | .toHandler => func args
  | .toUnauthenticated => um.unauthenticated_view_function
  | .toUnauthorized => um.unauthorized_view_function
  | .toUnconfirmedEmail => um.unconfirmed_email_view_function

/-- The current principal with every external call fallible: each method
may raise (return `Except.error`) instead of answering. -/
structure CurrentUserE (ε : Type) where
  is_authenticated : Except ε Bool
  has_roles : List Requirement → Except ε Bool
  has_confirmed_email : Except ε Bool

/-- The host application state with fallible fallback callbacks. -/
structure UserManagerE (ε R : Type) where
  unauthenticated_view_function : Except ε R
  unauthorized_view_function : Except ε R
  unconfirmed_email_view_function : Except ε R
  enable_email : Bool
  enable_confirm_email : Bool

/-- `login_required` in the `Except` monad: the guard performs the same
tests, raising nothing of its own. -/
def login_requiredE {ε A R : Type} (func : A → Except ε R)
    (cu : CurrentUserE ε) (um : UserManagerE ε R) (args : A) :
    Except ε R := do
  let auth ← cu.is_authenticated
  if !auth then
    um.unauthenticated_view_function
  else
    func args

/-- `roles_required` in the `Except` monad. -/
def roles_requiredE {ε A R : Type} (required_roles : List Requirement)
    (func : A → Except ε R) (cu : CurrentUserE ε) (um : UserManagerE ε R)
    (args : A) : Except ε R := do
  let auth ← cu.is_authenticated
  if !auth then
    um.unauthenticated_view_function
  else do
    let okRoles ← cu.has_roles required_roles
    if !okRoles then
      um.unauthorized_view_function
    else
      func args

/-- `confirm_email_required` in the `Except` monad; the short-circuit of
`not enable_email or not enable_confirm_email or has_confirmed_email()`
is kept: the confirmed-email call runs only when both flags are set. -/
def confirm_email_requiredE {ε A R : Type} (func : A → Except ε R)
    (cu : CurrentUserE ε) (um : UserManagerE ε R) (args : A) :
    Except ε R := do
  let auth ← cu.is_authenticated
  if auth then
    if !um.enable_email || !um.enable_confirm_email then
      func args
    else do
      let conf ← cu.has_confirmed_email
      if conf then func args else um.unconfirmed_email_view_function
  else
    um.unconfirmed_email_view_function

/-- The modelled `has_roles` computes exactly the satisfaction of the
Role Requirement Expression. -/
theorem specHasRoles_iff_exprSatisfied (ur : List String)
    (reqs : List Requirement) :
    specHasRoles ur reqs = true ↔ exprSatisfied ur reqs := by
  unfold specHasRoles exprSatisfied
  rw [List.all_eq_true]
  constructor
  · intro h req hreq
    have hh := h req hreq
    cases req with
    | role n => simpa [termSatisfied] using hh
    | tuple ns => simpa [termSatisfied, List.any_eq_true] using hh
  · intro h req hreq
    have hh := h req hreq
    cases req with
    | role n => simpa [termSatisfied] using hh
    | tuple ns => simpa [termSatisfied, List.any_eq_true] using hh

/-- The confirmed-email scan finds a record with a non-null timestamp iff
one exists in the list. -/
theorem findConfirmedEmail_iff (l : List UserEmail) :
    findConfirmedEmail l = true ↔ ∃ ue ∈ l, ue.confirmed_at ≠ none := by
  induction l with
  | nil => simp [findConfirmedEmail]
  | cons ue rest ih =>
    cases h : ue.confirmed_at <;>
      simp [findConfirmedEmail, h, ih]

/-- C2: an unauthenticated principal gets the unauthenticated callback
result — for every handler `f`, so the handler is never consulted — and an
authenticated principal gets `f args`, the handler applied to the original
arguments, unchanged. -/
theorem login_required_routes {A R : Type} (f : A → R)
    (hr : List Requirement → Bool) (ce : Bool) (um : UserManager R)
    (args : A) :
    login_required f ⟨false, hr, ce⟩ um args =
        um.unauthenticated_view_function ∧
    login_required f ⟨true, hr, ce⟩ um args = f args := by
  constructor <;> rfl

/-- C1: for an authenticated principal whose `has_roles` method is the
spec-modelled one, the guard calls the handler iff the Role Requirement
Expression is satisfied (conjunction of terms, disjunction within a tuple
term); with no terms it always calls the handler; and on the worked
example `roles_required("a", ("b","c"), "d")` the guard calls the handler
exactly when the principal has role a AND (role b OR role c) AND role d,
for every combination of presence/absence flags. -/
theorem roles_required_semantics {A R : Type} (reqs : List Requirement)
    (f : A → R) (ce : Bool) (um : UserManager R) (args : A)
    (ur : List String) :
    (exprSatisfied ur reqs →
       roles_required reqs f ⟨true, specHasRoles ur, ce⟩ um args = f args) ∧
    (¬ exprSatisfied ur reqs →
       roles_required reqs f ⟨true, specHasRoles ur, ce⟩ um args =
         um.unauthorized_view_function) ∧
    (roles_required [] f ⟨true, specHasRoles ur, ce⟩ um args = f args) ∧
    (∀ ha hb hc hd : Bool,
       roles_required exampleReqs f
           ⟨true, specHasRoles (rolesOf ha hb hc hd), ce⟩ um args =
         if ha && (hb || hc) && hd then f args
         else um.unauthorized_view_function) := by
  refine ⟨?_, ?_, ?_, ?_⟩
  · intro h
    have hs : specHasRoles ur reqs = true :=
      (specHasRoles_iff_exprSatisfied ur reqs).mpr h
    simp [roles_required, hs]
  · intro h
    have hs : specHasRoles ur reqs = false := by
      cases hh : specHasRoles ur reqs
      · rfl
      · exact absurd ((specHasRoles_iff_exprSatisfied ur reqs).mp hh) h
    simp [roles_required, hs]
  · simp [roles_required, specHasRoles]
  · intro ha hb hc hd
    have hs : specHasRoles (rolesOf ha hb hc hd) exampleReqs =
        (ha && (hb || hc) && hd) := by
      revert ha hb hc hd
      decide
    cases h4 : (ha && (hb || hc) && hd) <;>
      simp [roles_required, hs, h4]

/-- Witness for C1: concrete instances of the satisfied case and of a
combination of the worked example. -/
theorem roles_required_semantics_witness :
    roles_required exampleReqs (fun n : Nat => n + 1)
        ⟨true, specHasRoles ["a", "c", "d"], true⟩ ⟨0, 1, 2, true, true⟩ 5
      = 6 ∧
    roles_required exampleReqs (fun n : Nat => n + 1)
        ⟨true, specHasRoles ["a", "b"], true⟩ ⟨0, 1, 2, true, true⟩ 5
      = 1 := by
  constructor
  · have h := (roles_required_semantics exampleReqs (fun n : Nat => n + 1)
      true ⟨0, 1, 2, true, true⟩ 5 ["a", "c", "d"]).1 (by decide)
    simpa using h
  · have h := (roles_required_semantics exampleReqs (fun n : Nat => n + 1)
      true ⟨0, 1, 2, true, true⟩ 5 ["a", "b"]).2.1 (by decide)
    simpa using h

/-- C3: an unauthenticated principal always gets the unauthenticated
callback result from a `roles_required` guard, for every requirement list,
every handler and every `has_roles` method — so the result is identical
across any two role assignments, and neither the unauthorized callback nor
the wrapped handler is consulted. -/
theorem roles_required_unauthenticated_opaque {A R : Type}
    (reqs : List Requirement) (f g : A → R)
    (hr hr2 : List Requirement → Bool) (ce ce2 : Bool)
    (um : UserManager R) (args : A) :
    roles_required reqs f ⟨false, hr, ce⟩ um args =
        um.unauthenticated_view_function ∧
    roles_required reqs f ⟨false, hr, ce⟩ um args =
        roles_required reqs g ⟨false, hr2, ce2⟩ um args := by
  constructor <;> rfl

/-- C4: an authenticated principal failing the Role Requirement Expression
gets the unauthorized callback result, never the handler; one satisfying
it gets the handler result. -/
theorem roles_required_authenticated_routes {A R : Type}
    (reqs : List Requirement) (f : A → R) (ce : Bool)
    (um : UserManager R) (args : A) (ur : List String) :
    (¬ exprSatisfied ur reqs →
       roles_required reqs f ⟨true, specHasRoles ur, ce⟩ um args =
         um.unauthorized_view_function) ∧
    (exprSatisfied ur reqs →
       roles_required reqs f ⟨true, specHasRoles ur, ce⟩ um args =
         f args) := by
  constructor
  · intro h
    have hs : specHasRoles ur reqs = false := by
      cases hh : specHasRoles ur reqs
      · rfl
      · exact absurd ((specHasRoles_iff_exprSatisfied ur reqs).mp hh) h
    simp [roles_required, hs]
  · intro h
    have hs : specHasRoles ur reqs = true :=
      (specHasRoles_iff_exprSatisfied ur reqs).mpr h
    simp [roles_required, hs]

/-- C5: `confirm_email_required` calls the handler exactly when the
principal is authenticated AND (email is disabled OR confirm-email is
disabled OR the principal has a confirmed email); in every other case it
returns the unconfirmed-email callback result. -/
theorem confirm_email_required_semantics {A R : Type} (f : A → R)
    (auth conf : Bool) (hr : List Requirement → Bool)
    (um : UserManager R) (args : A) :
    confirm_email_required f ⟨auth, hr, conf⟩ um args =
      if auth && (!um.enable_email || !um.enable_confirm_email || conf) then
        f args
      else
        um.unconfirmed_email_view_function := by
  cases auth <;> cases conf <;> cases h1 : um.enable_email <;>
    cases h2 : um.enable_confirm_email <;>
    simp [confirm_email_required, h1, h2]

/-- C6: both the unauthenticated case and the authenticated-but-unconfirmed
case of `confirm_email_required` return the value of the same
unconfirmed-email callback; the unauthenticated callback value `u` is
arbitrary and never the result. -/
theorem confirm_email_required_single_fallback {A R : Type} (f : A → R)
    (hr : List Requirement → Bool) (ce : Bool) (u z c : R) (e1 e2 : Bool)
    (args : A) :
    confirm_email_required f ⟨false, hr, ce⟩ ⟨u, z, c, e1, e2⟩ args = c ∧
    confirm_email_required f ⟨true, hr, false⟩ ⟨u, z, c, true, true⟩ args
      = c := by
  constructor <;> rfl

/-- C7: with a configured multi-email record class the helper reports a
confirmed email iff some record of the adapter query for the user id has a
non-null confirmation timestamp; without one, iff the `confirmed_at` field
of the user record is set. -/
theorem user_has_confirmed_email_semantics (q : Nat → List UserEmail)
    (user : User) :
    (user_has_confirmed_email ⟨true, q⟩ user = true ↔
       ∃ ue ∈ q user.id, ue.confirmed_at ≠ none) ∧
    (user_has_confirmed_email ⟨false, q⟩ user = true ↔
       user.confirmed_at ≠ none) := by
  constructor
  · simpa [user_has_confirmed_email] using findConfirmedEmail_iff (q user.id)
  · simp [user_has_confirmed_email, Option.isSome_iff_ne_none]

/-- Witness for C7: a confirmed record in second position yields true; in
the single-email branch a set `confirmed_at` yields true. -/
theorem user_has_confirmed_email_semantics_witness :
    user_has_confirmed_email ⟨true, fun _ => [⟨none⟩, ⟨some 7⟩]⟩ ⟨1, none⟩
      = true ∧
    user_has_confirmed_email ⟨false, fun _ => []⟩ ⟨1, some 3⟩ = true := by
  constructor
  · exact (user_has_confirmed_email_semantics
      (fun _ => [⟨none⟩, ⟨some 7⟩]) ⟨1, none⟩).1.mpr
      ⟨⟨some 7⟩, by simp, by simp⟩
  · exact (user_has_confirmed_email_semantics
      (fun _ => []) ⟨1, some 3⟩).2.mpr (by simp)

/-- Witness for C4: a principal with only role x is unauthorized for the
requirement list [role y]; one with role y passes. -/
theorem roles_required_authenticated_routes_witness :
    roles_required [Requirement.role "y"] (fun n : Nat => n + 1)
        ⟨true, specHasRoles ["x"], true⟩ ⟨0, 7, 2, true, true⟩ 5 = 7 ∧
    roles_required [Requirement.role "y"] (fun n : Nat => n + 1)
        ⟨true, specHasRoles ["y"], true⟩ ⟨0, 7, 2, true, true⟩ 5 = 6 := by
  constructor
  · have h := (roles_required_authenticated_routes [Requirement.role "y"]
      (fun n : Nat => n + 1) true ⟨0, 7, 2, true, true⟩ 5 ["x"]).1 (by decide)
    simpa using h
  · have h := (roles_required_authenticated_routes [Requirement.role "y"]
      (fun n : Nat => n + 1) true ⟨0, 7, 2, true, true⟩ 5 ["y"]).2 (by decide)
    simpa using h

/-- C8: every guarded call factors through a routing decision computed
from the principal state and the configuration flags alone — so two
invocations with identical principal state, identical configuration and
identical arguments take the identical branch among handler,
unauthenticated, unauthorized and unconfirmed-email: the guards consult no
state beyond their explicit inputs. -/
theorem guards_factor_through_routes {A R : Type}
    (reqs : List Requirement) (f : A → R) (cu : CurrentUser)
    (um : UserManager R) (args : A) :
    login_required f cu um args = dispatch (login_route cu) f um args ∧
    roles_required reqs f cu um args =
      dispatch (roles_route reqs cu) f um args ∧
    confirm_email_required f cu um args =
      dispatch (confirm_route cu um.enable_email um.enable_confirm_email)
        f um args := by
  obtain ⟨auth, hr, conf⟩ := cu
  refine ⟨?_, ?_, ?_⟩ <;> cases auth <;> cases conf <;>
    cases h1 : um.enable_email <;> cases h2 : um.enable_confirm_email <;>
    cases h3 : hr reqs <;>
    simp [login_required, roles_required, confirm_email_required,
      login_route, roles_route, confirm_route, dispatch, h1, h2, h3]

/-- C9: in the fallible embedding, every outcome of a guarded call is the
verbatim value of one delegated component — a callback, the handler, or
the unmodified error of the principal provider — and when the consulted
components answer, the guard itself raises nothing: the enumeration below
covers every shape of the external answers for the three decorators. -/
theorem guards_propagate_errors {ε A R : Type} (reqs : List Requirement)
    (fE : A → Except ε R) (hrE : List Requirement → Except ε Bool)
    (ceE : Except ε Bool) (e : ε) (um : UserManagerE ε R)
    (uE zE cE : Except ε R) (e2 : Bool) (args : A) :
    login_requiredE fE ⟨Except.error e, hrE, ceE⟩ um args =
        Except.error e ∧
    login_requiredE fE ⟨Except.ok false, hrE, ceE⟩ um args =
        um.unauthenticated_view_function ∧
    login_requiredE fE ⟨Except.ok true, hrE, ceE⟩ um args = fE args ∧
    roles_requiredE reqs fE ⟨Except.error e, hrE, ceE⟩ um args =
        Except.error e ∧
    roles_requiredE reqs fE ⟨Except.ok false, hrE, ceE⟩ um args =
        um.unauthenticated_view_function ∧
    roles_requiredE reqs fE
        ⟨Except.ok true, fun _ => Except.error e, ceE⟩ um args =
        Except.error e ∧
    roles_requiredE reqs fE
        ⟨Except.ok true, fun _ => Except.ok false, ceE⟩ um args =
        um.unauthorized_view_function ∧
    roles_requiredE reqs fE
        ⟨Except.ok true, fun _ => Except.ok true, ceE⟩ um args = fE args ∧
    confirm_email_requiredE fE ⟨Except.error e, hrE, ceE⟩ um args =
        Except.error e ∧
    confirm_email_requiredE fE ⟨Except.ok false, hrE, ceE⟩ um args =
        um.unconfirmed_email_view_function ∧
    confirm_email_requiredE fE ⟨Except.ok true, hrE, Except.error e⟩
        ⟨uE, zE, cE, true, true⟩ args = Except.error e ∧
    confirm_email_requiredE fE ⟨Except.ok true, hrE, Except.ok false⟩
        ⟨uE, zE, cE, true, true⟩ args = cE ∧
    confirm_email_requiredE fE ⟨Except.ok true, hrE, Except.ok true⟩
        ⟨uE, zE, cE, true, true⟩ args = fE args ∧
    confirm_email_requiredE fE ⟨Except.ok true, hrE, ceE⟩
        ⟨uE, zE, cE, false, e2⟩ args = fE args ∧
    confirm_email_requiredE fE ⟨Except.ok true, hrE, ceE⟩
        ⟨uE, zE, cE, e2, false⟩ args = fE args := by
  refine ⟨rfl, rfl, rfl, rfl, rfl, rfl, rfl, rfl, rfl, rfl, rfl, rfl,
    rfl, rfl, ?_⟩
  cases e2 <;> rfl

/-- C10: with either configuration flag off, an authenticated principal
reaches the handler whatever the confirmed-email answer would be — in the
fallible embedding even a raising `has_confirmed_email` is never called —
and only with both flags on does the result follow the confirmed-email
check. -/
theorem confirm_email_required_flag_disjunction {A R : Type} (f : A → R)
    (hr : List Requirement → Bool) (c1 e1 e2 : Bool) (u z c : R)
    (args : A) {ε : Type} (fE : A → Except ε R)
    (hrE : List Requirement → Except ε Bool) (err : ε)
    (uE zE cE : Except ε R) :
    confirm_email_required f ⟨true, hr, c1⟩ ⟨u, z, c, false, e2⟩ args =
        f args ∧
    confirm_email_required f ⟨true, hr, c1⟩ ⟨u, z, c, e1, false⟩ args =
        f args ∧
    confirm_email_required f ⟨true, hr, c1⟩ ⟨u, z, c, true, true⟩ args =
        (if c1 then f args else c) ∧
    confirm_email_requiredE fE ⟨Except.ok true, hrE, Except.error err⟩
        ⟨uE, zE, cE, false, e2⟩ args = fE args ∧
    confirm_email_requiredE fE ⟨Except.ok true, hrE, Except.error err⟩
        ⟨uE, zE, cE, e1, false⟩ args = fE args := by
  refine ⟨rfl, ?_, ?_, rfl, ?_⟩
  · cases e1 <;> rfl
  · cases c1 <;> rfl
  · cases e1 <;> rfl

end FlaskUser
